import Mathlib

/-!
# Verification of the saga / order-management workflows

Shallow embedding of the two workflow functions of this repository:

* `orderProcessingWorkflow` (examples/02-error-handling/order-processing-workflow.ts):
  four forward activity calls guarded by a try block, two completion flags
  (`paymentProcessed`, `inventoryReserved`), and a catch block that releases
  inventory, refunds payment, notifies the customer of failure and rethrows.

* `orderManagementWorkflow` (examples/04-production-patterns/order-management-workflow.ts):
  signal/query driven order lifecycle with cancellation checks.

Activities run on an external platform and may succeed or fail; we model a run
as a pure function of an *oracle* assigning each activity invocation its result
(`none` = resolves, `some e` = rejects with error message `e`).  Exceptions are
modelled with `Except String`.  Each run also records the chronological list of
program states (one snapshot per activity boundary), so that properties about
what happens *during* a run (monotonic growth of the completion record) are
statable.
-/

namespace TemporalGuide

/-! ## Data model of order-processing-workflow.ts -/

/-- `Array<{ productId: string; quantity: number }>` element. -/
structure OrderItem where
  productId : String
  quantity : Nat
deriving DecidableEq, Repr

/-- `export interface OrderRequest` (order-processing-workflow.ts). -/
structure OrderRequest where
  orderId : String
  customerId : String
  items : List OrderItem
  paymentMethod : String
deriving DecidableEq, Repr

/-- The distinct activity invocation sites of `orderProcessingWorkflow`.
`notifyConfirmed` is the `sendNotification(..., ORDER_CONFIRMED, ...)` call of
step 4, `notifyFailed` the `sendNotification(..., ORDER_FAILED, ...)` call of
the catch block. -/
inductive Activity where
  | validatePayment
  | reserveInventory
  | processShipment
  | notifyConfirmed
  | releaseInventory
  | refundPayment
  | notifyFailed
deriving DecidableEq, Fintype, Repr

/-- Result of each activity invocation: `none` = the awaited call resolves,
`some e` = it rejects with error message `e`. -/
structure ActivityOracle where
  validatePayment : Option String
  reserveInventory : Option String
  processShipment : Option String
  notifyConfirmed : Option String
  releaseInventory : Option String
  refundPayment : Option String
  notifyFailed : Option String
deriving DecidableEq, Repr

/-- The mutable local state of one `orderProcessingWorkflow` invocation:
the two completion flags plus the chronological list of activity invocations
(the latter is observational instrumentation, not a source variable). -/
structure RunState where
  paymentProcessed : Bool := false
  inventoryReserved : Bool := false
  trace : List Activity := []
deriving DecidableEq, Repr

/-- Record that activity `a` has been invoked. -/
def invoke (s : RunState) (a : Activity) : RunState :=
  { s with trace := s.trace ++ [a] }

/-! ## Embedding of orderProcessingWorkflow

Each stage returns the list of state snapshots it passes through (in
chronological order) together with the final result of the workflow
(`Except.ok` = the workflow returns, `Except.error` = it throws). -/

/-- Tail of the catch block (lines 291–294):
`await sendNotification(order.customerId, 'ORDER_FAILED', order.orderId); throw error;`.
An exception thrown by the notification propagates instead of the original
error (there is no inner try/catch). -/
def catchNotify (o : ActivityOracle) (s : RunState) (err : String) :
    List RunState × Except String String :=
  let s1 := invoke s Activity.notifyFailed
  match o.notifyFailed with
  | some e => ([s1], Except.error e)
  | none => ([s1], Except.error err)

/-- Middle of the catch block (lines 284–289):
`if (paymentProcessed) { await proxyActivities({...}).refundPayment(...); }`.
An exception thrown by `refundPayment` propagates out of the catch block. -/
def catchRefund (o : ActivityOracle) (s : RunState) (err : String) :
    List RunState × Except String String :=
  if s.paymentProcessed then
    let s1 := invoke s Activity.refundPayment
    match o.refundPayment with
    | some e => ([s1], Except.error e)
    | none =>
      let r := catchNotify o s1 err
      (s1 :: r.1, r.2)
  else
    catchNotify o s err

/-- Head of the catch block (lines 277–282):
`if (inventoryReserved) { await proxyActivities({...}).releaseInventory(...); }`.
An exception thrown by `releaseInventory` propagates out of the catch block,
skipping the refund and the failure notification. -/
def catchBlock (o : ActivityOracle) (s : RunState) (err : String) :
    List RunState × Except String String :=
  if s.inventoryReserved then
    let s1 := invoke s Activity.releaseInventory
    match o.releaseInventory with
    | some e => ([s1], Except.error e)
    | none =>
      let r := catchRefund o s1 err
      (s1 :: r.1, r.2)
  else
    catchRefund o s err

/-- `orderProcessingWorkflow` (lines 251–296).  Returns the chronological
list of state snapshots (starting with the initial state) and the final
result. -/
def orderProcessingRun (order : OrderRequest) (o : ActivityOracle) :
    List RunState × Except String String :=
  let s0 : RunState := {}
  -- Step 1: Validate payment
  let s1 := invoke s0 Activity.validatePayment
  match o.validatePayment with
  | some e =>
    let r := catchBlock o s1 e
    (s0 :: s1 :: r.1, r.2)
  | none =>
    let s2 := { s1 with paymentProcessed := true }
    -- Step 2: Reserve inventory
    let s3 := invoke s2 Activity.reserveInventory
    match o.reserveInventory with
    | some e =>
      let r := catchBlock o s3 e
      (s0 :: s1 :: s2 :: s3 :: r.1, r.2)
    | none =>
      let s4 := { s3 with inventoryReserved := true }
      -- Step 3: Process shipment
      let s5 := invoke s4 Activity.processShipment
      match o.processShipment with
      | some e =>
        let r := catchBlock o s5 e
        (s0 :: s1 :: s2 :: s3 :: s4 :: s5 :: r.1, r.2)
      | none =>
        -- Step 4: Send confirmation
        let s6 := invoke s5 Activity.notifyConfirmed
        match o.notifyConfirmed with
        | some e =>
          let r := catchBlock o s6 e
          (s0 :: s1 :: s2 :: s3 :: s4 :: s5 :: s6 :: r.1, r.2)
        | none =>
          ([s0, s1, s2, s3, s4, s5, s6],
            Except.ok ("Order " ++ order.orderId ++ " processed successfully"))

/-- Final state of a run. -/
def finalState (order : OrderRequest) (o : ActivityOracle) : RunState :=
  (orderProcessingRun order o).1.getLastD {}

/-- Final result of a run. -/
def runResult (order : OrderRequest) (o : ActivityOracle) : Except String String :=
  (orderProcessingRun order o).2

/-! ## Abstractions used by the claims -/

/-- The spec's `completed` list, read off the workflow's completion record.
The code records completion in the two booleans `paymentProcessed` and
`inventoryReserved` (set in that order, the only reachable order), so the
recorded completed-step list contains at most those two step names. -/
def completedRecord (s : RunState) : List String :=
  (if s.paymentProcessed then ["validatePayment"] else []) ++
  (if s.inventoryReserved then ["reserveInventory"] else [])

/-- Whether an activity invocation is a compensating action
(`releaseInventory`, `refundPayment`). -/
def Activity.isCompensation : Activity → Bool
  | Activity.releaseInventory => true
  | Activity.refundPayment => true
  | _ => false

/-- The compensations invoked during a run, in invocation order. -/
def compensationTrace (s : RunState) : List Activity :=
  s.trace.filter Activity.isCompensation

/-- The forward step names of the workflow, in execution order (the code's own
comments label them Step 1 … Step 4; step 4 is the `sendNotification`
confirmation call). -/
def stepNames : List String :=
  ["validatePayment", "reserveInventory", "processShipment", "sendNotification"]

/-- Forward result of step `k` (0-indexed) under an oracle. -/
def forwardResult (o : ActivityOracle) : Nat → Option String
  | 0 => o.validatePayment
  | 1 => o.reserveInventory
  | 2 => o.processShipment
  | 3 => o.notifyConfirmed
  | _ => none

/-- Compensating action paired with forward step `k` (0-indexed):
`validatePayment` is undone by `refundPayment`, `reserveInventory` by
`releaseInventory`; shipment and notification have none. -/
def stepCompensation : Nat → Option Activity
  | 0 => some Activity.refundPayment
  | 1 => some Activity.releaseInventory
  | _ => none

/-- Names of the steps among `0..k-1` whose completion the code tracks
(exactly the steps that have a compensating action). -/
def trackedSteps (k : Nat) : List String :=
  (List.range k).filterMap fun j =>
    match stepCompensation j with
    | some _ => stepNames.get? j
    | none => none

/-- Compensations of the steps `0..k-1` that have one, in reverse completion
order. -/
def expectedCompensations (k : Nat) : List Activity :=
  ((List.range k).filterMap stepCompensation).reverse

/-- The trace event of forward step `k` (0-indexed). -/
def stepActivity : Nat → Option Activity
  | 0 => some Activity.validatePayment
  | 1 => some Activity.reserveInventory
  | 2 => some Activity.processShipment
  | 3 => some Activity.notifyConfirmed
  | _ => none

/-- First forward failure of a run, if any. -/
def firstForwardError (o : ActivityOracle) : Option String :=
  match o.validatePayment with
  | some e => some e
  | none =>
    match o.reserveInventory with
    | some e => some e
    | none =>
      match o.processShipment with
      | some e => some e
      | none => o.notifyConfirmed

/-- All four forward calls resolve. -/
def allForwardOk (o : ActivityOracle) : Prop :=
  o.validatePayment = none ∧ o.reserveInventory = none ∧
    o.processShipment = none ∧ o.notifyConfirmed = none

instance (o : ActivityOracle) : Decidable (allForwardOk o) := by
  unfold allForwardOk; infer_instance

/-! ## Retry configuration (lines 226–239 and 277–289) -/

/-- The `retry` options object passed to `proxyActivities`. -/
structure RetryPolicy where
  initialInterval : String
  maximumInterval : String
  backoffCoefficient : Nat
  maximumAttempts : Nat
deriving DecidableEq, Repr

/-- Options passed to `proxyActivities` at a call site. -/
structure ActivityOptions where
  startToCloseTimeout : String
  retry : Option RetryPolicy
deriving DecidableEq, Repr

/-- Options of the module-level proxy (lines 226–239) used for the four
forward activity calls and the failure notification. -/
def orderActivityOptions : ActivityOptions :=
  { startToCloseTimeout := "5 minutes",
    retry := some { initialInterval := "1s", maximumInterval := "30s",
                    backoffCoefficient := 2, maximumAttempts := 3 } }

/-- Options of the inline proxies used for the two compensation calls
(lines 277–282 and 284–289): a timeout and no `retry` entry. -/
def compensationActivityOptions : ActivityOptions :=
  { startToCloseTimeout := "2 minutes", retry := none }

/-- The options in force at each activity invocation site of
`orderProcessingWorkflow`. -/
def activityOptionsOf : Activity → ActivityOptions
  | Activity.releaseInventory => compensationActivityOptions
  | Activity.refundPayment => compensationActivityOptions
  | _ => orderActivityOptions

/-! ## Monotonicity relation for the completion record (claim C7) -/

/-- One run state extends another: completion flags only turn on, and the
recorded completed list is extended at the end (never shrunk or reordered). -/
def stateLe (a b : RunState) : Prop :=
  (a.paymentProcessed ≤ b.paymentProcessed) ∧
  (a.inventoryReserved ≤ b.inventoryReserved) ∧
  (completedRecord b).take (completedRecord a).length = completedRecord a

instance (a b : RunState) : Decidable (stateLe a b) := by
  unfold stateLe; infer_instance

/-! ## Embedding of orderManagementWorkflow
(examples/04-production-patterns/order-management-workflow.ts) -/

/-- `status: 'PENDING' | 'PROCESSING' | 'FULFILLED' | 'CANCELLED'`. -/
inductive OrderStatus where
  | pending
  | processing
  | fulfilled
  | cancelled
deriving DecidableEq, Repr

/-- The activity invocation sites of `orderManagementWorkflow`.  The three
`notify…` sites are the `sendOrderNotification` calls with messages
'Order cancelled', 'Order completed' and 'Order failed'. -/
inductive MgmtActivity where
  | processPayment
  | fulfillOrder
  | cancelOrder
  | notifyCancelled
  | notifyCompleted
  | notifyFailed
deriving DecidableEq, Repr

/-- State of one `orderManagementWorkflow` invocation: the `order` record's
mutable fields plus the handler-local `shouldCancel` / `cancellationReason`
variables and the invocation trace. -/
structure MgmtState where
  status : OrderStatus
  updates : List String
  shouldCancel : Bool
  cancellationReason : String
  trace : List MgmtActivity
deriving DecidableEq, Repr

/-- When (at which await point) a `cancelOrder` signal is delivered during the
run, if at all. -/
inductive CancelPoint where
  | beforeProcessing
  | duringFulfillment
  | afterFulfilled
  | never
deriving DecidableEq, Repr

/-- Activity results plus the signal-delivery schedule of one run. -/
structure MgmtOracle where
  processPayment : Option String
  fulfillOrder : Option String
  cancelOrder : Option String
  notifyCancelled : Option String
  notifyCompleted : Option String
  notifyFailed : Option String
  cancelAt : CancelPoint
  cancelReason : String
deriving DecidableEq, Repr

/-- Record that management activity `a` has been invoked. -/
def minvoke (s : MgmtState) (a : MgmtActivity) : MgmtState :=
  { s with trace := s.trace ++ [a] }

/-- The `cancelOrderSignal` handler (lines 45–51): only when the order is not
yet `FULFILLED` does it set `shouldCancel`, store the reason and append an
update entry. -/
def cancelOrderHandler (reason : String) (s : MgmtState) : MgmtState :=
  if s.status ≠ OrderStatus.fulfilled then
    { s with shouldCancel := true,
             cancellationReason := reason,
             updates := s.updates ++ ["Cancellation requested: " ++ reason] }
  else
    s

/-- The catch block (lines 106–111): set status `CANCELLED`, append the error
to `updates`, send the failure notification (whose own failure replaces the
error being rethrown) and rethrow. -/
def mgmtCatch (o : MgmtOracle) (s : MgmtState) (err : String) :
    MgmtState × Except String String :=
  let s1 := { s with status := OrderStatus.cancelled,
                     updates := s.updates ++ ["Error: " ++ err] }
  let s2 := minvoke s1 MgmtActivity.notifyFailed
  match o.notifyFailed with
  | some e => (s2, Except.error e)
  | none => (s2, Except.error err)

/-- Continuation after `Promise.race([fulfillmentPromise, cancellationPromise])`
(lines 88–104): the cancellation branch, or awaiting the fulfillment result and
finishing the success path.  A cancel signal delivered at the
completion-notification await (`CancelPoint.afterFulfilled`) runs the handler
while `status` is already `FULFILLED`. -/
def mgmtAfterRace (o : MgmtOracle) (orderId : String) (s : MgmtState) :
    MgmtState × Except String String :=
  if s.shouldCancel then
    let s1 := minvoke s MgmtActivity.cancelOrder
    match o.cancelOrder with
    | some e => mgmtCatch o s1 e
    | none =>
      let s2 := { s1 with status := OrderStatus.cancelled }
      let s3 := minvoke s2 MgmtActivity.notifyCancelled
      match o.notifyCancelled with
      | some e => mgmtCatch o s3 e
      | none =>
        (s3, Except.ok ("Order " ++ orderId ++ " cancelled during fulfillment: "
          ++ s.cancellationReason))
  else
    match o.fulfillOrder with
    | some e => mgmtCatch o s e
    | none =>
      let s4 := { s with status := OrderStatus.fulfilled,
                         updates := s.updates ++ ["Order fulfilled successfully"] }
      let s5 := if o.cancelAt = CancelPoint.afterFulfilled
                then cancelOrderHandler o.cancelReason s4 else s4
      let s6 := minvoke s5 MgmtActivity.notifyCompleted
      match o.notifyCompleted with
      | some e => mgmtCatch o s6 e
      | none => (s6, Except.ok ("Order " ++ orderId ++ " completed successfully"))

/-- `orderManagementWorkflow` (lines 33–112).  Initial state, signal handlers
installed, then the try block: status `PROCESSING`, cancellation check,
payment, fulfillment raced against cancellation, and the success path; the
catch block maps any thrown error to a `CANCELLED` terminal state.  A cancel
signal delivered at `CancelPoint.beforeProcessing` runs the handler before the
first cancellation check (while status is `PENDING`); one delivered at
`CancelPoint.duringFulfillment` runs it while fulfillment is pending, making
the race resolve via the cancellation condition. -/
def orderManagementRun (orderId customerId : String) (o : MgmtOracle) :
    MgmtState × Except String String :=
  let s0 : MgmtState :=
    { status := OrderStatus.pending, updates := ["Order created"],
      shouldCancel := false, cancellationReason := "", trace := [] }
  let s1 := if o.cancelAt = CancelPoint.beforeProcessing
            then cancelOrderHandler o.cancelReason s0 else s0
  -- Step 1: Payment processing
  let s2 := { s1 with status := OrderStatus.processing,
                      updates := s1.updates ++ ["Processing payment..."] }
  if s2.shouldCancel then
    let s3 := minvoke s2 MgmtActivity.cancelOrder
    match o.cancelOrder with
    | some e => mgmtCatch o s3 e
    | none =>
      ({ s3 with status := OrderStatus.cancelled },
        Except.ok ("Order " ++ orderId ++ " cancelled: " ++ s2.cancellationReason))
  else
    let s4 := minvoke s2 MgmtActivity.processPayment
    match o.processPayment with
    | some e => mgmtCatch o s4 e
    | none =>
      let s5 := { s4 with updates := s4.updates ++
                    ["Payment processed successfully", "Starting fulfillment..."] }
      -- Step 2: fulfillment started, raced against the cancellation condition
      let s6 := minvoke s5 MgmtActivity.fulfillOrder
      let s7 := if o.cancelAt = CancelPoint.duringFulfillment
                then cancelOrderHandler o.cancelReason s6 else s6
      mgmtAfterRace o orderId s7

/-! ## Generic saga executor

Modelled from the spec: §4.1 reconstructs a generic `SagaExecutor.run` over an
ordered list of steps (forward action, optional compensation); only its
concrete four-step instance `orderProcessingWorkflow` appears in the
repository.  Used for the clauses of the claims that quantify over step
sequences other than the fixed four-step one (the empty sequence). -/

/-- Modelled from the spec: one saga step (§3), carrying the result its
forward action and (optional) compensation produce when invoked. -/
structure SagaStep where
  name : String
  forward : Except String Unit
  compensate : Option (Except String Unit)

/-- Modelled from the spec: `outcome` is one of
`{Succeeded, Failed(originalError), CompensationFailed(originalError, compensationErrors)}`
(§3). -/
inductive SagaOutcome where
  | succeeded
  | failed (originalError : String)
  | compensationFailed (originalError : String) (compensationErrors : List String)
deriving DecidableEq, Repr

/-- Modelled from the spec: the run algorithm of §4.1 — execute steps in
order, appending the name of each step whose forward succeeds to `completed`;
on the first forward failure, invoke the compensations of the completed steps
that have one in reverse completion order, collecting (not propagating)
compensation failures, and report the original error. -/
def sagaRunAux (completed : List SagaStep) :
    List SagaStep → List String × SagaOutcome
  | [] => (completed.map SagaStep.name, SagaOutcome.succeeded)
  | step :: rest =>
    match step.forward with
    | Except.ok _ => sagaRunAux (completed ++ [step]) rest
    | Except.error e =>
      let compErrors := completed.reverse.filterMap fun st =>
        match st.compensate with
        | none => none
        | some (Except.ok _) => none
        | some (Except.error ce) => some ce
      (completed.map SagaStep.name,
        if compErrors = [] then SagaOutcome.failed e
        else SagaOutcome.compensationFailed e compErrors)

/-- Modelled from the spec: `run(steps, input) -> outcome` (§4.1), returning
the final `completed` list and the outcome. -/
def sagaRun (steps : List SagaStep) : List String × SagaOutcome :=
  sagaRunAux [] steps

/-! ## Two independent runs (claim C8) -/

/-- Two saga runs executed side by side.  The source workflow keeps all its
mutable state (`paymentProcessed`, `inventoryReserved`) in function-local
variables, so two invocations share nothing; the pair of runs is simply the
pair of the individual runs. -/
def runPair (ord₁ : OrderRequest) (o₁ : ActivityOracle)
    (ord₂ : OrderRequest) (o₂ : ActivityOracle) :
    (List RunState × Except String String) × (List RunState × Except String String) :=
  (orderProcessingRun ord₁ o₁, orderProcessingRun ord₂ o₂)

/-! ## Concrete sample inputs for counterexamples and witnesses -/

/-- A sample order (shape of the test-client orders). -/
def sampleOrder : OrderRequest :=
  { orderId := "order-1", customerId := "cust-123",
    items := [{ productId := "prod-1", quantity := 2 }],
    paymentMethod := "credit-card" }

/-- Every activity call resolves. -/
def oracleAllOk : ActivityOracle :=
  { validatePayment := none, reserveInventory := none, processShipment := none,
    notifyConfirmed := none, releaseInventory := none, refundPayment := none,
    notifyFailed := none }

/-- Steps 1–3 succeed, the step-4 confirmation notification fails,
compensations succeed. -/
def oracleConfirmFails : ActivityOracle :=
  { oracleAllOk with notifyConfirmed := some "notification service down" }

/-- Steps 1–2 succeed, step 3 fails, and the `releaseInventory` compensation
fails. -/
def oracleReleaseFails : ActivityOracle :=
  { oracleAllOk with processShipment := some "insufficient inventory",
                     releaseInventory := some "inventory service down" }

/-- Steps 1–2 succeed, step 3 fails, and the `refundPayment` compensation
fails. -/
def oracleRefundFails : ActivityOracle :=
  { oracleAllOk with processShipment := some "insufficient inventory",
                     refundPayment := some "refund service down" }

/-- Steps 1–2 succeed, step 3 fails, all catch-phase calls succeed. -/
def oracleShipmentFails : ActivityOracle :=
  { oracleAllOk with processShipment := some "insufficient inventory" }

/-- Management run: every activity resolves, cancellation requested while
fulfillment is in progress (after payment completed). -/
def mgmtOracleCancelMidway : MgmtOracle :=
  { processPayment := none, fulfillOrder := none, cancelOrder := none,
    notifyCancelled := none, notifyCompleted := none, notifyFailed := none,
    cancelAt := CancelPoint.duringFulfillment, cancelReason := "changed mind" }

/-! ## Helper lemmas -/

/-- When every forward call resolves, the workflow returns its success
message. -/
theorem runResult_allOk (order : OrderRequest) (o : ActivityOracle)
    (h : allForwardOk o) :
    runResult order o = Except.ok ("Order " ++ order.orderId ++ " processed successfully") := by
  obtain ⟨h1, h2, h3, h4⟩ := h
  simp [runResult, orderProcessingRun, h1, h2, h3, h4]

/-- When every forward call resolves, the final state has both completion
flags set and the trace is exactly the four forward invocations. -/
theorem finalState_allOk (order : OrderRequest) (o : ActivityOracle)
    (h : allForwardOk o) :
    finalState order o =
      { paymentProcessed := true, inventoryReserved := true,
        trace := [Activity.validatePayment, Activity.reserveInventory,
                  Activity.processShipment, Activity.notifyConfirmed] } := by
  obtain ⟨h1, h2, h3, h4⟩ := h
  simp [finalState, orderProcessingRun, invoke, h1, h2, h3, h4, List.getLastD]

/-! ## Claim theorems -/

/-- C5 (amended): when every forward action (including the step-4 confirmation
notification) succeeds, the workflow returns its success message and no
compensation is invoked; the recorded completed list is
`["validatePayment", "reserveInventory"]` — the code tracks completion only
for the two compensable steps, not for the full step sequence; the
empty-step-sequence clause holds of the generic executor of the spec, whose
run on no steps is `Succeeded` with an empty completed list. -/
theorem all_success_outcome (order : OrderRequest) (o : ActivityOracle)
    (h : allForwardOk o) :
    runResult order o = Except.ok ("Order " ++ order.orderId ++ " processed successfully") ∧
    compensationTrace (finalState order o) = [] ∧
    completedRecord (finalState order o) = ["validatePayment", "reserveInventory"] ∧
    sagaRun [] = ([], SagaOutcome.succeeded) := by
  refine ⟨runResult_allOk order o h, ?_, ?_, rfl⟩ <;>
    simp [finalState_allOk order o h, compensationTrace, completedRecord,
      Activity.isCompensation]

/-- C5 witness: the amended claim at the sample order and the all-resolving
oracle. -/
theorem all_success_outcome_witness :
    allForwardOk oracleAllOk ∧
    runResult sampleOrder oracleAllOk = Except.ok "Order order-1 processed successfully" :=
  ⟨by decide, (all_success_outcome sampleOrder oracleAllOk (by decide)).1⟩

/-- C5 counterexample: in the all-success run the recorded completed list is
not the full step-name sequence — completion of `processShipment` and of the
confirmation notification is never recorded. -/
theorem completed_record_not_full_sequence_cex :
    runResult sampleOrder oracleAllOk = Except.ok "Order order-1 processed successfully" ∧
    completedRecord (finalState sampleOrder oracleAllOk) ≠ stepNames :=
  ⟨rfl, by decide⟩

/-- C8: two runs of the all-succeeding step sequence on independent inputs
are independent: the pair of runs is literally the pair of the individual
runs (the workflow keeps all mutable state in function-local variables),
run 1's snapshots and outcome are unchanged under any change of run 2's input
and oracle, and both runs report success on their own order ids. -/
theorem independent_runs_no_leakage (ord₁ ord₂ ord₂' : OrderRequest)
    (o₁ o₂ o₂' : ActivityOracle) (h₁ : allForwardOk o₁) (h₂ : allForwardOk o₂) :
    (runPair ord₁ o₁ ord₂ o₂).1 = orderProcessingRun ord₁ o₁ ∧
    (runPair ord₁ o₁ ord₂ o₂).1 = (runPair ord₁ o₁ ord₂' o₂').1 ∧
    (runPair ord₁ o₁ ord₂ o₂).1.2 =
      Except.ok ("Order " ++ ord₁.orderId ++ " processed successfully") ∧
    (runPair ord₁ o₁ ord₂ o₂).2.2 =
      Except.ok ("Order " ++ ord₂.orderId ++ " processed successfully") :=
  ⟨rfl, rfl, runResult_allOk ord₁ o₁ h₁, runResult_allOk ord₂ o₂ h₂⟩

/-- C8 witness: two all-succeeding runs on the sample order and an order with
a different id. -/
theorem independent_runs_no_leakage_witness :
    allForwardOk oracleAllOk ∧
    (runPair sampleOrder oracleAllOk
        { sampleOrder with orderId := "order-2" } oracleAllOk).2.2 =
      Except.ok "Order order-2 processed successfully" :=
  ⟨by decide,
    (independent_runs_no_leakage sampleOrder { sampleOrder with orderId := "order-2" }
      sampleOrder oracleAllOk oracleAllOk oracleAllOk (by decide) (by decide)).2.2.2⟩

/-- C6: the retry configuration of the module-level proxy has
`maximumAttempts = 3 ≥ 1` and `backoffCoefficient = 2 ≥ 1` together with
initial and maximum backoff intervals; it is the options object in force at
every forward step invocation; the inline proxies used for the two
compensation calls carry no retry configuration; and the executor itself
never retries: every activity invocation site appears at most once in any
run's trace. -/
theorem executor_never_retries :
    (∃ p, orderActivityOptions.retry = some p ∧
      1 ≤ p.maximumAttempts ∧ 1 ≤ p.backoffCoefficient ∧
      p.initialInterval = "1s" ∧ p.maximumInterval = "30s") ∧
    (∀ k a, stepActivity k = some a → activityOptionsOf a = orderActivityOptions) ∧
    (∀ a, a.isCompensation = true → (activityOptionsOf a).retry = none) ∧
    (∀ order o a, ((finalState order o).trace.count a) ≤ 1) := by
  refine ⟨⟨_, rfl, by norm_num, by norm_num, rfl, rfl⟩, ?_, by decide, ?_⟩
  · intro k a hk
    match k, hk with
    | 0, hk => cases hk; rfl
    | 1, hk => cases hk; rfl
    | 2, hk => cases hk; rfl
    | 3, hk => cases hk; rfl
  · intro order o
    rcases o with ⟨vp, ri, ps, nc, rel, ref, nf⟩
    cases vp <;> cases ri <;> cases ps <;> cases nc <;> cases rel <;> cases ref <;> cases nf <;>
      · simp [finalState, orderProcessingRun, catchBlock, catchRefund, catchNotify,
          invoke, List.getLastD]
        decide

/-- C6 witness: the forward-step options conjunct at step 0. -/
theorem executor_never_retries_witness :
    activityOptionsOf Activity.validatePayment = orderActivityOptions :=
  executor_never_retries.2.1 0 Activity.validatePayment rfl

/-- C7: during every run the completion record grows monotonically — along
the chronological list of run states, each completion flag only turns from
`false` to `true` and each state's recorded completed list is an initial
segment of the next one's (entries are only appended, never removed or
reordered). -/
theorem completed_record_monotone (order : OrderRequest) (o : ActivityOracle) :
    List.Chain' stateLe (orderProcessingRun order o).1 := by
  rcases o with ⟨vp, ri, ps, nc, rel, ref, nf⟩
  cases vp <;> cases ri <;> cases ps <;> cases nc <;> cases rel <;> cases ref <;> cases nf <;>
    · simp [orderProcessingRun, catchBlock, catchRefund, catchNotify, invoke]
      decide

/-- C1 (amended): when steps `1..k-1` succeed, step `k`'s forward action
fails and the invoked compensations succeed, the recorded completed list is
exactly the names of those steps among `1..k-1` that have a compensating
action (the code tracks completion only through the `paymentProcessed` and
`inventoryReserved` flags), and the compensations of exactly those steps are
invoked, in reverse completion order; in particular, when the first step
fails no compensation is invoked. -/
theorem forward_failure_unwind (order : OrderRequest) (o : ActivityOracle)
    (k : Nat) (hk : k < 4)
    (hprev : ∀ j, j < k → forwardResult o j = none)
    (hfail : forwardResult o k ≠ none)
    (hrel : o.releaseInventory = none) (href : o.refundPayment = none) :
    completedRecord (finalState order o) = trackedSteps k ∧
    compensationTrace (finalState order o) = expectedCompensations k := by
  interval_cases k
  · simp only [forwardResult, ne_eq] at hfail
    cases hvp : o.validatePayment with
    | none => exact absurd hvp hfail
    | some e =>
      cases hnf : o.notifyFailed <;>
        · simp [finalState, orderProcessingRun, catchBlock, catchRefund, catchNotify,
            invoke, completedRecord, compensationTrace, hvp, hnf, List.getLastD]
          decide
  · have h0 := hprev 0 (by omega)
    simp only [forwardResult] at h0
    simp only [forwardResult, ne_eq] at hfail
    cases hri : o.reserveInventory with
    | none => exact absurd hri hfail
    | some e =>
      cases hnf : o.notifyFailed <;>
        · simp [finalState, orderProcessingRun, catchBlock, catchRefund, catchNotify,
            invoke, completedRecord, compensationTrace, h0, hri, href, hnf, List.getLastD]
          decide
  · have h0 := hprev 0 (by omega)
    have h1 := hprev 1 (by omega)
    simp only [forwardResult] at h0 h1
    simp only [forwardResult, ne_eq] at hfail
    cases hps : o.processShipment with
    | none => exact absurd hps hfail
    | some e =>
      cases hnf : o.notifyFailed <;>
        · simp [finalState, orderProcessingRun, catchBlock, catchRefund, catchNotify,
            invoke, completedRecord, compensationTrace, h0, h1, hps, hrel, href, hnf,
            List.getLastD]
          decide
  · have h0 := hprev 0 (by omega)
    have h1 := hprev 1 (by omega)
    have h2 := hprev 2 (by omega)
    simp only [forwardResult] at h0 h1 h2
    simp only [forwardResult, ne_eq] at hfail
    cases hnc : o.notifyConfirmed with
    | none => exact absurd hnc hfail
    | some e =>
      cases hnf : o.notifyFailed <;>
        · simp [finalState, orderProcessingRun, catchBlock, catchRefund, catchNotify,
            invoke, completedRecord, compensationTrace, h0, h1, h2, hnc, hrel, href, hnf,
            List.getLastD]
          decide

/-- C1 witness: the amended claim at `k = 3` (steps 1–2 succeed, the shipment
step fails, both compensations succeed). -/
theorem forward_failure_unwind_witness :
    completedRecord (finalState sampleOrder oracleShipmentFails) = trackedSteps 2 ∧
    compensationTrace (finalState sampleOrder oracleShipmentFails) = expectedCompensations 2 :=
  forward_failure_unwind sampleOrder oracleShipmentFails 2 (by omega)
    (by intro j hj; interval_cases j <;> rfl) (by decide) rfl rfl

/-- C1 counterexample: when steps 1–3 succeed and the step-4 confirmation
notification fails, the claim requires steps 1–3 to be recorded as completed,
but the code records only the two flagged steps — `processShipment`'s
completion is nowhere recorded. -/
theorem completed_record_misses_shipment_cex :
    forwardResult oracleConfirmFails 0 = none ∧
    forwardResult oracleConfirmFails 1 = none ∧
    forwardResult oracleConfirmFails 2 = none ∧
    forwardResult oracleConfirmFails 3 ≠ none ∧
    completedRecord (finalState sampleOrder oracleConfirmFails) ≠
      ["validatePayment", "reserveInventory", "processShipment"] := by
  refine ⟨rfl, rfl, rfl, by decide, by decide⟩

/-- C2 (amended): a compensation failure is not collected — it propagates out
of the catch block at once: in every run that enters the compensation phase
with inventory reserved and whose `releaseInventory` compensation fails, the
`refundPayment` compensation of the earlier completed payment step is never
invoked and the workflow fails with the compensation error. -/
theorem compensation_failure_skips_rest (order : OrderRequest) (o : ActivityOracle)
    (e : String)
    (h0 : o.validatePayment = none) (h1 : o.reserveInventory = none)
    (hfail : ¬(o.processShipment = none ∧ o.notifyConfirmed = none))
    (hrel : o.releaseInventory = some e) :
    Activity.refundPayment ∉ (finalState order o).trace ∧
    runResult order o = Except.error e ∧
    (finalState order o).paymentProcessed = true := by
  cases hps : o.processShipment with
  | some e2 =>
    simp [finalState, runResult, orderProcessingRun, catchBlock, catchRefund, catchNotify,
      invoke, h0, h1, hps, hrel, List.getLastD]
  | none =>
    cases hnc : o.notifyConfirmed with
    | none => exact absurd ⟨hps, hnc⟩ hfail
    | some e2 =>
      simp [finalState, runResult, orderProcessingRun, catchBlock, catchRefund, catchNotify,
        invoke, h0, h1, hps, hnc, hrel, List.getLastD]

/-- C2 witness: the amended claim at the run where the shipment step fails
and the inventory-release compensation fails. -/
theorem compensation_failure_skips_rest_witness :
    Activity.refundPayment ∉ (finalState sampleOrder oracleReleaseFails).trace ∧
    runResult sampleOrder oracleReleaseFails = Except.error "inventory service down" ∧
    (finalState sampleOrder oracleReleaseFails).paymentProcessed = true :=
  compensation_failure_skips_rest sampleOrder oracleReleaseFails
    "inventory service down" rfl rfl (by decide) rfl

/-- C2 counterexample: steps 1–2 succeed, step 3 fails with "insufficient
inventory", and the `releaseInventory` compensation fails; the payment step
completed and has a compensation, yet `refundPayment` is never invoked — the
compensation failure prevents the remaining compensation. -/
theorem compensation_failure_skips_refund_cex :
    (finalState sampleOrder oracleReleaseFails).paymentProcessed = true ∧
    Activity.releaseInventory ∈ (finalState sampleOrder oracleReleaseFails).trace ∧
    Activity.refundPayment ∉ (finalState sampleOrder oracleReleaseFails).trace := by
  decide

/-- C3 (amended): the original forward error `E` is reported only when every
catch-phase call succeeds: if all invoked compensations and the failure
notification resolve, the workflow rethrows `E`; but when a catch-phase call
fails, its error replaces `E` as the reported error (there is no
`CompensationFailed` outcome carrying both). -/
theorem original_error_preserved_when_catch_ok (order : OrderRequest)
    (o : ActivityOracle) (e : String)
    (hE : firstForwardError o = some e)
    (hrel : o.releaseInventory = none) (href : o.refundPayment = none)
    (hnf : o.notifyFailed = none) :
    runResult order o = Except.error e := by
  cases hvp : o.validatePayment with
  | some e1 =>
    simp only [firstForwardError, hvp] at hE
    cases hE
    simp [runResult, orderProcessingRun, catchBlock, catchRefund, catchNotify, invoke,
      hvp, hnf]
  | none =>
    cases hri : o.reserveInventory with
    | some e1 =>
      simp only [firstForwardError, hvp, hri] at hE
      cases hE
      simp [runResult, orderProcessingRun, catchBlock, catchRefund, catchNotify, invoke,
        hvp, hri, href, hnf]
    | none =>
      cases hps : o.processShipment with
      | some e1 =>
        simp only [firstForwardError, hvp, hri, hps] at hE
        cases hE
        simp [runResult, orderProcessingRun, catchBlock, catchRefund, catchNotify, invoke,
          hvp, hri, hps, hrel, href, hnf]
      | none =>
        cases hnc : o.notifyConfirmed with
        | some e1 =>
          simp only [firstForwardError, hvp, hri, hps, hnc] at hE
          cases hE
          simp [runResult, orderProcessingRun, catchBlock, catchRefund, catchNotify,
            invoke, hvp, hri, hps, hnc, hrel, href, hnf]
        | none => simp [firstForwardError, hvp, hri, hps, hnc] at hE

/-- C3 witness: the shipment step fails with "insufficient inventory" and all
catch-phase calls succeed, so exactly that error is reported. -/
theorem original_error_preserved_witness :
    runResult sampleOrder oracleShipmentFails = Except.error "insufficient inventory" :=
  original_error_preserved_when_catch_ok sampleOrder oracleShipmentFails
    "insufficient inventory" rfl rfl rfl rfl

/-- C3 counterexample: the shipment step fails with original error
"insufficient inventory", the `refundPayment` compensation fails with
"refund service down", and the workflow reports the compensation error — the
original forward error is not the primary reported error. -/
theorem compensation_error_replaces_original_cex :
    firstForwardError oracleRefundFails = some "insufficient inventory" ∧
    runResult sampleOrder oracleRefundFails = Except.error "refund service down" :=
  ⟨rfl, rfl⟩

/-- C4 (amended): when cancellation is requested during fulfillment after the
payment step has completed, the workflow invokes the single `cancelOrder`
cleanup activity (not per-step compensations in reverse order — no
payment-refunding activity exists in this workflow), sets status `CANCELLED`,
sends a cancellation notification, and returns normally with a cancellation
message: the outcome is a successful completion that records the
cancellation, not a failure outcome. -/
theorem cancellation_returns_normally (orderId customerId : String)
    (o : MgmtOracle)
    (hc : o.cancelAt = CancelPoint.duringFulfillment)
    (hpp : o.processPayment = none) (hco : o.cancelOrder = none)
    (hnca : o.notifyCancelled = none) :
    (orderManagementRun orderId customerId o).2 =
      Except.ok ("Order " ++ orderId ++ " cancelled during fulfillment: " ++ o.cancelReason) ∧
    (orderManagementRun orderId customerId o).1.status = OrderStatus.cancelled ∧
    (orderManagementRun orderId customerId o).1.trace =
      [MgmtActivity.processPayment, MgmtActivity.fulfillOrder,
       MgmtActivity.cancelOrder, MgmtActivity.notifyCancelled] := by
  refine ⟨?_, ?_, ?_⟩ <;>
    simp [orderManagementRun, mgmtAfterRace, mgmtCatch, minvoke, cancelOrderHandler,
      hc, hpp, hco, hnca]

/-- C4 witness: the amended claim at the sample management oracle. -/
theorem cancellation_returns_normally_witness :
    (orderManagementRun "ord-1" "cust-123" mgmtOracleCancelMidway).2 =
      Except.ok "Order ord-1 cancelled during fulfillment: changed mind" :=
  (cancellation_returns_normally "ord-1" "cust-123" mgmtOracleCancelMidway
    rfl rfl rfl rfl).1

/-- C4 counterexample: cancellation requested during fulfillment (payment
completed) yields a normal `Except.ok` return — not a cancellation-triggered
failure outcome — and the only cleanup invoked is the generic `cancelOrder`
activity followed by a notification; no per-step reverse compensation of the
completed payment step occurs. -/
theorem cancellation_not_failure_outcome_cex :
    (orderManagementRun "ord-1" "cust-123" mgmtOracleCancelMidway).2 =
      Except.ok "Order ord-1 cancelled during fulfillment: changed mind" ∧
    (orderManagementRun "ord-1" "cust-123" mgmtOracleCancelMidway).1.trace =
      [MgmtActivity.processPayment, MgmtActivity.fulfillOrder,
       MgmtActivity.cancelOrder, MgmtActivity.notifyCancelled] :=
  ⟨rfl, rfl⟩

/-- C9: a `cancelOrder` signal delivered while the order status is
`FULFILLED` has no effect — the handler leaves the state (including
`shouldCancel`, `cancellationReason` and `updates`) unchanged — and a run
receiving the signal at the post-fulfillment await is indistinguishable from
one receiving no signal at all, so a fulfilled order never transitions to
`CANCELLED` via the cancel signal. -/
theorem cancel_signal_after_fulfilled_no_effect :
    (∀ (s : MgmtState) (reason : String), s.status = OrderStatus.fulfilled →
      cancelOrderHandler reason s = s) ∧
    (∀ (orderId customerId : String) (pp fo co nca ncc ncf : Option String) (r : String),
      orderManagementRun orderId customerId
        { processPayment := pp, fulfillOrder := fo, cancelOrder := co,
          notifyCancelled := nca, notifyCompleted := ncc, notifyFailed := ncf,
          cancelAt := CancelPoint.afterFulfilled, cancelReason := r } =
      orderManagementRun orderId customerId
        { processPayment := pp, fulfillOrder := fo, cancelOrder := co,
          notifyCancelled := nca, notifyCompleted := ncc, notifyFailed := ncf,
          cancelAt := CancelPoint.never, cancelReason := r }) := by
  constructor
  · intro s reason h
    simp [cancelOrderHandler, h]
  · intro orderId customerId pp fo co nca ncc ncf r
    cases pp <;> cases fo <;> cases ncc <;> cases ncf <;>
      simp [orderManagementRun, mgmtAfterRace, mgmtCatch, minvoke, cancelOrderHandler]

/-- C9 witness: the handler at a concrete fulfilled state, and a concrete
run pair with and without the post-fulfillment signal. -/
theorem cancel_signal_after_fulfilled_no_effect_witness :
    cancelOrderHandler "too late"
      { status := OrderStatus.fulfilled, updates := ["Order created"],
        shouldCancel := false, cancellationReason := "", trace := [] } =
      { status := OrderStatus.fulfilled, updates := ["Order created"],
        shouldCancel := false, cancellationReason := "", trace := [] } ∧
    orderManagementRun "ord-1" "cust-123"
      { processPayment := none, fulfillOrder := none, cancelOrder := none,
        notifyCancelled := none, notifyCompleted := none, notifyFailed := none,
        cancelAt := CancelPoint.afterFulfilled, cancelReason := "too late" } =
    orderManagementRun "ord-1" "cust-123"
      { processPayment := none, fulfillOrder := none, cancelOrder := none,
        notifyCancelled := none, notifyCompleted := none, notifyFailed := none,
        cancelAt := CancelPoint.never, cancelReason := "too late" } :=
  ⟨cancel_signal_after_fulfilled_no_effect.1 _ "too late" rfl,
    cancel_signal_after_fulfilled_no_effect.2 "ord-1" "cust-123"
      none none none none none none "too late"⟩

/-- C10: every terminating execution path of `orderManagementWorkflow` —
normal return, cancellation return, or rethrown error — leaves the order
status equal to `FULFILLED` or `CANCELLED`; no run terminates with status
`PENDING` or `PROCESSING`. -/
theorem final_status_fulfilled_or_cancelled (orderId customerId : String)
    (o : MgmtOracle) :
    (orderManagementRun orderId customerId o).1.status = OrderStatus.fulfilled ∨
    (orderManagementRun orderId customerId o).1.status = OrderStatus.cancelled := by
  rcases o with ⟨pp, fo, co, nca, ncc, ncf, cat, r⟩
  cases cat <;> cases pp <;> cases fo <;> cases co <;> cases nca <;> cases ncc <;> cases ncf <;>
    simp [orderManagementRun, mgmtAfterRace, mgmtCatch, minvoke, cancelOrderHandler]

end TemporalGuide
